import Mathlib

/-!
# The CAD-monitor registry of `monitor/monitor.go`

The package keeps two package-level variables, the map `cadMonitorRegistry`
(name to constructor) and the mutex `cadMonitorRegistryLock`, and two
functions over them, `RegisterCadMonitor` and `InstantiateCadMonitor`.

The embedding is explicit state passing.

* A value of the interface type `CadMonitor` is `none` (the nil interface) or
  `some r`, a reference `r` to an implementing object.
* A value of type `func() CadMonitor` is `Func.nil` or `Func.fn id`, a code
  pointer.  What the code behind a pointer does is given by a code table
  `Code W`: run in a program state it either returns an interface value and a
  new program state, or does not return (it panics or diverges).  The program
  state holds the two package variables and `world : W`, everything else; a
  constructor body is arbitrary Go, so it may call back into this package and
  read or write the registry.
* The Go map is a list of entries with pairwise distinct keys; `m[k] = v`
  overwrites the entry of `k` in place or appends one.
* The mutex is a boolean, `true` when held.  `Lock` on a held mutex never
  returns when nobody else runs, `Unlock` on a free mutex is a fatal error;
  both are the result `none`.
* Each of the two functions returns, next to its results, what its body did:
  `RegisterCadMonitor` the atomic actions it completed, `InstantiateCadMonitor`
  the function values it called.
-/

namespace Monitor

/-- Value of the Go interface type `CadMonitor`: `none` is the nil interface. -/
abbrev CadMonitor := Option Nat

/-- Value of the Go type `func() CadMonitor`. -/
inductive Func where
  | nil
  | fn (id : Nat)
  deriving DecidableEq

/-- An error value; `msg` is what its `Error()` method returns. -/
structure GoError where
  msg : String
  deriving DecidableEq

/-- The library call `errors.New(message)`. -/
def errorsNew (message : String) : GoError := ⟨message⟩

/-- The package variable `ErrCadMonitorLoggedOut = errors.New("logged out")`. -/
def ErrCadMonitorLoggedOut : GoError := errorsNew "logged out"

/-! ## The Go map -/

/-- The assignment `m[k] = v` on the entries of a map. -/
def mapAssign (k : String) (v : Func) : List (String × Func) → List (String × Func)
  | [] => [(k, v)]
  | e :: rest => if e.1 = k then (k, v) :: rest else e :: mapAssign k v rest

/-- The lookup `v, found = m[k]` on the entries of a map. -/
def mapLookup (k : String) : List (String × Func) → Option Func
  | [] => none
  | e :: rest => if e.1 = k then some e.2 else mapLookup k rest

/-- Number of entries stored under key `k`. -/
def mapCount (k : String) (es : List (String × Func)) : Nat :=
  (es.filter (fun e => decide (e.1 = k))).length

/-- A Go map from `string` to `func() CadMonitor`. -/
structure GoMap where
  entries : List (String × Func)
  nodup : (entries.map Prod.fst).Nodup

/-- The map literal `map[string]func() CadMonitor{}`. -/
def GoMap.empty : GoMap := ⟨[], List.nodup_nil⟩

/-- The assignment `m[k] = v`. -/
def GoMap.assign (m : GoMap) (k : String) (v : Func) : GoMap :=
  ⟨mapAssign k v m.entries, by
    have key : ∀ es : List (String × Func), (es.map Prod.fst).Nodup →
        ((mapAssign k v es).map Prod.fst).Nodup ∧
        ∀ x, x ∈ (mapAssign k v es).map Prod.fst → x = k ∨ x ∈ es.map Prod.fst := by
      intro es
      induction es with
      | nil => intro _; simp [mapAssign]
      | cons e rest ih =>
        intro hn
        have hn1 : e.1 ∉ rest.map Prod.fst ∧ (rest.map Prod.fst).Nodup := by
          simpa using hn
        by_cases hk : e.1 = k
        · refine ⟨?_, ?_⟩
          · have h2 : (k :: rest.map Prod.fst).Nodup :=
              List.nodup_cons.mpr ⟨hk ▸ hn1.1, hn1.2⟩
            simpa [mapAssign, hk] using h2
          · intro x hx
            have hx1 : x = k ∨ x ∈ rest.map Prod.fst := by
              simpa [mapAssign, hk] using hx
            rcases hx1 with h3 | h3
            · exact Or.inl h3
            · exact Or.inr (List.mem_cons_of_mem _ h3)
        · obtain ⟨ih1, ih2⟩ := ih hn1.2
          refine ⟨?_, ?_⟩
          · have h2 : (e.1 :: (mapAssign k v rest).map Prod.fst).Nodup := by
              refine List.nodup_cons.mpr ⟨?_, ih1⟩
              intro hmem
              rcases ih2 _ hmem with h3 | h3
              · exact hk h3
              · exact hn1.1 h3
            simpa [mapAssign, hk] using h2
          · intro x hx
            have hx1 : x = e.1 ∨ x ∈ (mapAssign k v rest).map Prod.fst := by
              simpa [mapAssign, hk] using hx
            rcases hx1 with h3 | h3
            · exact Or.inr (by simp [h3])
            · rcases ih2 x h3 with h4 | h4
              · exact Or.inl h4
              · exact Or.inr (List.mem_cons_of_mem _ h4)
    exact (key m.entries m.nodup).1⟩

/-- The lookup `v, found = m[k]`; `none` is `found = false`. -/
def GoMap.lookup (m : GoMap) (k : String) : Option Func := mapLookup k m.entries

/-! ## Program state and the two functions -/

/-- The package variables, and the rest of the program state. -/
structure State (W : Type) where
  cadMonitorRegistry : GoMap
  cadMonitorRegistryLock : Bool
  world : W

/-- State at package initialisation: empty map, free mutex. -/
def State.init {W : Type} (w : W) : State W := ⟨GoMap.empty, false, w⟩

/-- Behaviour of the code behind each function pointer, on the whole program
state. -/
abbrev Code (W : Type) := Nat → State W → Option (CadMonitor × State W)

/-- The call `f()`: calling a nil function value panics. -/
def invoke {W : Type} (code : Code W) : Func → State W → Option (CadMonitor × State W)
  | Func.nil, _ => none
  | Func.fn id, s => code id s

/-- The atomic actions of the body of `RegisterCadMonitor`. -/
inductive Instr where
  | lock
  | store (name : String) (m : Func)
  | unlock
  deriving DecidableEq

/-- One atomic action; `none` when it does not complete. -/
def Instr.exec {W : Type} : Instr → State W → Option (State W)
  | Instr.lock, s =>
    if s.cadMonitorRegistryLock then none
    else some { s with cadMonitorRegistryLock := true }
  | Instr.store name m, s =>
    some { s with cadMonitorRegistry := s.cadMonitorRegistry.assign name m }
  | Instr.unlock, s =>
    if s.cadMonitorRegistryLock then some { s with cadMonitorRegistryLock := false }
    else none

/-- Outcome of a call of `RegisterCadMonitor`: the atomic actions its body
completed, in order, each with the state it left, and the state at return when
the call returned. -/
structure RegExec (W : Type) where
  steps : List (Instr × State W)
  result : Option (State W)

/-- The function `RegisterCadMonitor(name, m)`: `Lock()`, the map write, and the
deferred `Unlock()` at return. -/
def RegisterCadMonitor {W : Type} (name : String) (m : Func) (s : State W) : RegExec W :=
  match Instr.exec Instr.lock s with
  | none => ⟨[], none⟩
  | some s1 =>
    match Instr.exec (Instr.store name m) s1 with
    | none => ⟨[(Instr.lock, s1)], none⟩
    | some s2 =>
      match Instr.exec Instr.unlock s2 with
      | none => ⟨[(Instr.lock, s1), (Instr.store name m, s2)], none⟩
      | some s3 =>
        ⟨[(Instr.lock, s1), (Instr.store name m, s2), (Instr.unlock, s3)], some s3⟩

/-- Outcome of a call of `InstantiateCadMonitor`: the function values its body
called, in order, and, when the call returned, the results `(m, err)` with the
state at return. -/
structure Exec (W : Type) where
  calls : List Func
  result : Option ((CadMonitor × Option GoError) × State W)

/-- The function `InstantiateCadMonitor(name)`. -/
def InstantiateCadMonitor {W : Type} (code : Code W) (name : String) (s : State W) :
    Exec W :=
  match s.cadMonitorRegistry.lookup name with
  | none =>
    ⟨[], some ((none, some (errorsNew ("unable to locate cad monitor " ++ name))), s)⟩
  | some f =>
    match invoke code f s with
    | none => ⟨[f], none⟩
    | some (m, s1) => ⟨[f], some ((m, none), s1)⟩

/-- A sequence of calls of `RegisterCadMonitor`, one after the other. -/
def registerAll {W : Type} : List (String × Func) → State W → Option (State W)
  | [], s => some s
  | r :: rest, s =>
    match (RegisterCadMonitor r.1 r.2 s).result with
    | none => none
    | some s1 => registerAll rest s1

/-- The text `sub` occurs in the text `s`. -/
def Contains (s sub : String) : Prop := ∃ a b : String, s = a ++ sub ++ b

/-- The constructor behind `f` neither reads nor writes the package variables:
its call is the function `g` of the rest of the program state. -/
def WorldOnly {W : Type} (code : Code W) (f : Func) (g : W → Option (CadMonitor × W)) :
    Prop :=
  ∀ s : State W, invoke code f s = (g s.world).map (fun r => (r.1, { s with world := r.2 }))

/-- A code table over an allocation counter: pointer `0` is
`func() CadMonitor { return nil }`, every other pointer allocates a new object
and returns a reference to it. -/
def baseCode : Code Nat := fun id s =>
  if id = 0 then some (none, s) else some (some s.world, { s with world := s.world + 1 })

/-- A sample code table that agrees with `baseCode` except at two pointers.
Pointer `2` is
`func() CadMonitor { RegisterCadMonitor("other", p0); return new(T) }`
with `p0` the function behind pointer `0`; pointer `3` is
`func() CadMonitor { m, _ := InstantiateCadMonitor("n"); return m }`, whose inner
call finds one of the pointers `0` and `1` in the sample states. -/
def sampleCode : Code Nat := fun id s =>
  if id = 2 then
    match (RegisterCadMonitor "other" (Func.fn 0) s).result with
    | none => none
    | some s1 => some (some s1.world, { s1 with world := s1.world + 1 })
  else if id = 3 then
    match (InstantiateCadMonitor baseCode "n" s).result with
    | none => none
    | some r => some (r.1.1, r.2)
  else baseCode id s

/-- A sample state: `acme` is registered with the allocating constructor, the
mutex is free and nothing has been allocated yet. -/
def sampleState : State Nat := ⟨GoMap.empty.assign "acme" (Func.fn 1), false, 0⟩

/-! ## Facts about the map -/

theorem mapAssign_keys_of_mem (k : String) (v : Func) :
    ∀ es : List (String × Func), k ∈ es.map Prod.fst →
      (mapAssign k v es).map Prod.fst = es.map Prod.fst
  | [], h => by simp at h
  | e :: rest, h => by
    by_cases hk : e.1 = k
    · simp [mapAssign, hk]
    · have hmem : k ∈ rest.map Prod.fst := by
        rcases List.mem_cons.mp h with h1 | h1
        · exact absurd h1.symm hk
        · exact h1
      simp [mapAssign, hk, mapAssign_keys_of_mem k v rest hmem]

theorem mapLookup_assign_same (k : String) (v : Func) :
    ∀ es : List (String × Func), mapLookup k (mapAssign k v es) = some v
  | [] => by simp [mapAssign, mapLookup]
  | e :: rest => by
    by_cases hk : e.1 = k
    · simp [mapAssign, mapLookup, hk]
    · simp [mapAssign, mapLookup, hk, mapLookup_assign_same k v rest]

theorem mapLookup_assign_ne (k j : String) (v : Func) (h : j ≠ k) :
    ∀ es : List (String × Func), mapLookup j (mapAssign k v es) = mapLookup j es
  | [] => by simp [mapAssign, mapLookup, h.symm]
  | e :: rest => by
    by_cases hk : e.1 = k
    · have hj : ¬ e.1 = j := fun h1 => h (h1.symm.trans hk)
      simp [mapAssign, mapLookup, hk, hj, h.symm]
    · by_cases hj : e.1 = j
      · simp only [mapAssign, if_neg hk, mapLookup, if_pos hj]
      · simp only [mapAssign, if_neg hk, mapLookup, if_neg hj]
        exact mapLookup_assign_ne k j v h rest

theorem mapCount_of_not_mem (k : String) :
    ∀ es : List (String × Func), k ∉ es.map Prod.fst → mapCount k es = 0
  | [], _ => by simp [mapCount]
  | e :: rest, h => by
    have hk : ¬ e.1 = k := fun h1 => h (by simp [h1])
    have hmem : k ∉ rest.map Prod.fst := fun h1 => h (List.mem_cons_of_mem _ h1)
    have ih := mapCount_of_not_mem k rest hmem
    simp only [mapCount] at ih ⊢
    simp [List.filter_cons, hk, ih]

theorem mapCount_assign (k : String) (v : Func) :
    ∀ es : List (String × Func), (es.map Prod.fst).Nodup →
      mapCount k (mapAssign k v es) = 1
  | [], _ => by simp [mapAssign, mapCount]
  | e :: rest, hn => by
    have hn1 : e.1 ∉ rest.map Prod.fst ∧ (rest.map Prod.fst).Nodup := by
      simpa using hn
    by_cases hk : e.1 = k
    · have h0 := mapCount_of_not_mem k rest (hk ▸ hn1.1)
      simp only [mapCount] at h0
      simp [mapAssign, hk, mapCount, List.filter_cons, h0]
    · have ih := mapCount_assign k v rest hn1.2
      simp only [mapCount] at ih
      simp [mapAssign, hk, mapCount, List.filter_cons, ih]

theorem mapAssign_length_same (k : String) (v w : Func) (es : List (String × Func)) :
    (mapAssign k w (mapAssign k v es)).length = (mapAssign k v es).length := by
  have hmem : k ∈ (mapAssign k v es).map Prod.fst := by
    induction es with
    | nil => simp [mapAssign]
    | cons e rest ih =>
      by_cases hk : e.1 = k
      · simp [mapAssign, hk]
      · simp only [mapAssign, hk, if_false, List.map_cons, List.mem_cons]
        exact Or.inr ih
  have h := congrArg List.length (mapAssign_keys_of_mem k w _ hmem)
  simpa using h

theorem GoMap.lookup_assign_same (m : GoMap) (k : String) (v : Func) :
    (m.assign k v).lookup k = some v :=
  mapLookup_assign_same k v m.entries

theorem GoMap.lookup_assign_ne (m : GoMap) (k j : String) (v : Func) (h : j ≠ k) :
    (m.assign k v).lookup j = m.lookup j :=
  mapLookup_assign_ne k j v h m.entries

/-! ## Facts about the two functions -/

theorem RegisterCadMonitor_of_free {W : Type} (name : String) (m : Func) (s : State W)
    (h : s.cadMonitorRegistryLock = false) :
    RegisterCadMonitor name m s =
      ⟨[(Instr.lock, ⟨s.cadMonitorRegistry, true, s.world⟩),
        (Instr.store name m, ⟨s.cadMonitorRegistry.assign name m, true, s.world⟩),
        (Instr.unlock, ⟨s.cadMonitorRegistry.assign name m, false, s.world⟩)],
        some ⟨s.cadMonitorRegistry.assign name m, false, s.world⟩⟩ := by
  simp [RegisterCadMonitor, Instr.exec, h]

theorem RegisterCadMonitor_result_of_free {W : Type} (name : String) (m : Func)
    (s : State W) (h : s.cadMonitorRegistryLock = false) :
    (RegisterCadMonitor name m s).result =
      some ⟨s.cadMonitorRegistry.assign name m, false, s.world⟩ := by
  rw [RegisterCadMonitor_of_free name m s h]

theorem RegisterCadMonitor_of_held {W : Type} (name : String) (m : Func) (s : State W)
    (h : s.cadMonitorRegistryLock = true) :
    RegisterCadMonitor name m s = ⟨[], none⟩ := by
  simp [RegisterCadMonitor, Instr.exec, h]

theorem InstantiateCadMonitor_of_absent {W : Type} (code : Code W) (name : String)
    (s : State W) (h : s.cadMonitorRegistry.lookup name = none) :
    InstantiateCadMonitor code name s =
      ⟨[], some ((none, some (errorsNew ("unable to locate cad monitor " ++ name))), s)⟩ := by
  simp [InstantiateCadMonitor, h]

theorem InstantiateCadMonitor_of_present {W : Type} (code : Code W) (name : String)
    (s : State W) (f : Func) (h : s.cadMonitorRegistry.lookup name = some f) :
    InstantiateCadMonitor code name s =
      match invoke code f s with
      | none => ⟨[f], none⟩
      | some (m, s1) => ⟨[f], some ((m, none), s1)⟩ := by
  simp [InstantiateCadMonitor, h]

theorem registerAll_of_free {W : Type} :
    ∀ (rs : List (String × Func)) (s : State W), s.cadMonitorRegistryLock = false →
      ∃ s1, registerAll rs s = some s1 ∧ s1.cadMonitorRegistryLock = false ∧
        s1.world = s.world ∧
        (∀ j, j ∉ rs.map Prod.fst →
          s1.cadMonitorRegistry.lookup j = s.cadMonitorRegistry.lookup j) ∧
        (∀ j c, (rs.map Prod.fst).Nodup → (j, c) ∈ rs →
          s1.cadMonitorRegistry.lookup j = some c)
  | [], s, h => ⟨s, rfl, h, rfl, fun _ _ => rfl, fun _ _ _ hm => by simp at hm⟩
  | r :: rest, s, h => by
    obtain ⟨s1, h1, h2, h3, h4, h5⟩ :=
      registerAll_of_free rest (⟨s.cadMonitorRegistry.assign r.1 r.2, false, s.world⟩ : State W) rfl
    refine ⟨s1, ?_, h2, h3, ?_, ?_⟩
    · simp [registerAll, RegisterCadMonitor_result_of_free r.1 r.2 s h, h1]
    · intro j hj
      have hj1 : j ≠ r.1 := fun e => hj (by simp [e])
      have hj2 : j ∉ rest.map Prod.fst := fun e => hj (List.mem_cons_of_mem _ e)
      rw [h4 j hj2]
      exact GoMap.lookup_assign_ne _ r.1 j r.2 hj1
    · intro j c hn hm
      have hn1 : r.1 ∉ rest.map Prod.fst ∧ (rest.map Prod.fst).Nodup := by
        simpa using hn
      rcases List.mem_cons.mp hm with e | e
      · subst e
        rw [h4 _ hn1.1]
        exact GoMap.lookup_assign_same _ _ _
      · exact h5 j c hn1.2 e

/-! ## Registration followed by instantiation -/

/-- C1: from any state with the mutex free, for any name and any constructor `c`
whose call, in the state the registration leaves, returns the value `v`,
`RegisterCadMonitor(name, c)` returns and the following
`InstantiateCadMonitor(name)` calls `c` and returns `(v, nil)`. -/
theorem register_then_instantiate {W : Type} (code : Code W) (s : State W)
    (name : String) (c : Func) (v : CadMonitor) (s2 : State W)
    (hfree : s.cadMonitorRegistryLock = false)
    (hc : invoke code c ⟨s.cadMonitorRegistry.assign name c, false, s.world⟩ = some (v, s2)) :
    ∃ s1, (RegisterCadMonitor name c s).result = some s1 ∧
      InstantiateCadMonitor code name s1 = ⟨[c], some ((v, none), s2)⟩ := by
  refine ⟨_, RegisterCadMonitor_result_of_free name c s hfree, ?_⟩
  rw [InstantiateCadMonitor_of_present code name _ c (GoMap.lookup_assign_same _ name c)]
  simp [hc]

/-- C1, at the empty name on the initial state with an allocating constructor. -/
theorem register_then_instantiate_witness :
    (State.init 0 : State Nat).cadMonitorRegistryLock = false ∧
    invoke sampleCode (Func.fn 1) ⟨GoMap.empty.assign "" (Func.fn 1), false, 0⟩ =
      some (some 0, ⟨GoMap.empty.assign "" (Func.fn 1), false, 1⟩) ∧
    ∃ s1, (RegisterCadMonitor "" (Func.fn 1) (State.init 0 : State Nat)).result = some s1 ∧
      InstantiateCadMonitor sampleCode "" s1 =
        ⟨[Func.fn 1], some ((some 0, none), ⟨GoMap.empty.assign "" (Func.fn 1), false, 1⟩)⟩ :=
  ⟨rfl, rfl,
    register_then_instantiate sampleCode (State.init 0) "" (Func.fn 1) (some 0) _ rfl rfl⟩

/-- C2: `InstantiateCadMonitor(name)` returns a non-nil error exactly when `name`
has no entry in the registry; then the instance is nil, nothing was called and
the state is untouched, and the results are not `(nil, nil)`. -/
theorem instantiate_error_iff_absent {W : Type} (code : Code W) (name : String)
    (s : State W) :
    ((∃ m e s1, (InstantiateCadMonitor code name s).result = some ((m, some e), s1)) ↔
      s.cadMonitorRegistry.lookup name = none) ∧
    (s.cadMonitorRegistry.lookup name = none →
      (∃ e, InstantiateCadMonitor code name s = ⟨[], some ((none, some e), s)⟩) ∧
      ∀ s1, (InstantiateCadMonitor code name s).result ≠ some ((none, none), s1)) := by
  constructor
  · constructor
    · rintro ⟨m, e, s1, h⟩
      cases hl : s.cadMonitorRegistry.lookup name with
      | none => rfl
      | some f =>
        rw [InstantiateCadMonitor_of_present code name s f hl] at h
        cases hi : invoke code f s with
        | none => simp [hi] at h
        | some r => simp [hi] at h
    · intro hl
      exact ⟨none, _, s, by rw [InstantiateCadMonitor_of_absent code name s hl]⟩
  · intro hl
    rw [InstantiateCadMonitor_of_absent code name s hl]
    exact ⟨⟨_, rfl⟩, fun s1 h => by simp at h⟩

/-- C3: for a name without an entry, the error returned by
`InstantiateCadMonitor(name)` has the message `"unable to locate cad monitor "`
followed by the name, so the name occurs in the message. -/
theorem notfound_message {W : Type} (code : Code W) (name : String) (s : State W)
    (habsent : s.cadMonitorRegistry.lookup name = none) :
    ∃ e, (InstantiateCadMonitor code name s).result = some ((none, some e), s) ∧
      e.msg = "unable to locate cad monitor " ++ name ∧ Contains e.msg name := by
  rw [InstantiateCadMonitor_of_absent code name s habsent]
  refine ⟨_, rfl, rfl, "unable to locate cad monitor ", "", ?_⟩
  simp [errorsNew]

/-- C3, for the name `other` after `acme` was registered. -/
theorem notfound_message_witness :
    (⟨GoMap.empty.assign "acme" (Func.fn 1), false, 0⟩ : State Nat).cadMonitorRegistry.lookup
        "other" = none ∧
    ∃ e, (InstantiateCadMonitor sampleCode "other"
          (⟨GoMap.empty.assign "acme" (Func.fn 1), false, 0⟩ : State Nat)).result =
        some ((none, some e), ⟨GoMap.empty.assign "acme" (Func.fn 1), false, 0⟩) ∧
      e.msg = "unable to locate cad monitor " ++ "other" ∧ Contains e.msg "other" :=
  ⟨by decide, notfound_message sampleCode "other" _ (by decide)⟩

/-- C4: from any state with the mutex free, after `RegisterCadMonitor(N, c1)` and
then `RegisterCadMonitor(N, c2)`, `InstantiateCadMonitor(N)` calls `c2` and
nothing else and returns `(v, nil)` for the value `v` that `c2` returns; the
registry holds one entry for `N` and has not grown with the second call. -/
theorem reregister_overwrites {W : Type} (code : Code W) (s : State W) (N : String)
    (c1 c2 : Func) (v : CadMonitor) (s3 : State W)
    (hfree : s.cadMonitorRegistryLock = false)
    (hc : invoke code c2
      ⟨(s.cadMonitorRegistry.assign N c1).assign N c2, false, s.world⟩ = some (v, s3)) :
    ∃ s1 s2, (RegisterCadMonitor N c1 s).result = some s1 ∧
      (RegisterCadMonitor N c2 s1).result = some s2 ∧
      InstantiateCadMonitor code N s2 = ⟨[c2], some ((v, none), s3)⟩ ∧
      mapCount N s2.cadMonitorRegistry.entries = 1 ∧
      s2.cadMonitorRegistry.entries.length = s1.cadMonitorRegistry.entries.length := by
  refine ⟨_, _, RegisterCadMonitor_result_of_free N c1 s hfree,
    RegisterCadMonitor_result_of_free N c2 _ rfl, ?_, ?_, ?_⟩
  · rw [InstantiateCadMonitor_of_present code N _ c2 (GoMap.lookup_assign_same _ N c2)]
    simp [hc]
  · exact mapCount_assign N c2 _ (s.cadMonitorRegistry.assign N c1).nodup
  · exact mapAssign_length_same N c1 c2 _

/-- C4, registering `acme` first with the nil-returning and then with the
allocating constructor. -/
theorem reregister_overwrites_witness :
    (State.init 5 : State Nat).cadMonitorRegistryLock = false ∧
    invoke sampleCode (Func.fn 1)
      ⟨(GoMap.empty.assign "acme" (Func.fn 0)).assign "acme" (Func.fn 1), false, 5⟩ =
      some (some 5, ⟨(GoMap.empty.assign "acme" (Func.fn 0)).assign "acme" (Func.fn 1),
        false, 6⟩) ∧
    ∃ s1 s2, (RegisterCadMonitor "acme" (Func.fn 0) (State.init 5 : State Nat)).result =
        some s1 ∧
      (RegisterCadMonitor "acme" (Func.fn 1) s1).result = some s2 ∧
      InstantiateCadMonitor sampleCode "acme" s2 =
        ⟨[Func.fn 1], some ((some 5, none),
          ⟨(GoMap.empty.assign "acme" (Func.fn 0)).assign "acme" (Func.fn 1), false, 6⟩)⟩ ∧
      mapCount "acme" s2.cadMonitorRegistry.entries = 1 ∧
      s2.cadMonitorRegistry.entries.length = s1.cadMonitorRegistry.entries.length :=
  ⟨rfl, rfl,
    reregister_overwrites sampleCode (State.init 5) "acme" (Func.fn 0) (Func.fn 1) (some 5) _
      rfl rfl⟩

/-- C5, as stated, fails: with the constructor `func() CadMonitor { return nil }`
registered under `acme`, `InstantiateCadMonitor("acme")` returns `(nil, nil)`. -/
theorem nil_instance_counterexample :
    ∃ s1, (RegisterCadMonitor "acme" (Func.fn 0) (State.init 0 : State Nat)).result =
        some s1 ∧
      InstantiateCadMonitor sampleCode "acme" s1 = ⟨[Func.fn 0], some ((none, none), s1)⟩ :=
  ⟨_, rfl, rfl⟩

/-- C5, amended: from any state with the mutex free, for any name and any
constructor whose call returns a non-nil value `v`, the instance returned by
`InstantiateCadMonitor(name)` after `RegisterCadMonitor(name, c)` is `v`, not nil,
and the error is nil. -/
theorem instance_nonnil_of_ctor_nonnil {W : Type} (code : Code W) (s : State W)
    (name : String) (c : Func) (v : CadMonitor) (s3 : State W)
    (hfree : s.cadMonitorRegistryLock = false)
    (hc : invoke code c ⟨s.cadMonitorRegistry.assign name c, false, s.world⟩ = some (v, s3))
    (hv : v ≠ none) :
    ∃ s1 m s2, (RegisterCadMonitor name c s).result = some s1 ∧
      (InstantiateCadMonitor code name s1).result = some ((m, none), s2) ∧
      m = v ∧ m ≠ none := by
  refine ⟨_, v, s3, RegisterCadMonitor_result_of_free name c s hfree, ?_, rfl, hv⟩
  rw [InstantiateCadMonitor_of_present code name _ c (GoMap.lookup_assign_same _ name c)]
  simp [hc]

/-- C5 amended, with the allocating constructor registered under `acme`. -/
theorem instance_nonnil_of_ctor_nonnil_witness :
    (State.init 0 : State Nat).cadMonitorRegistryLock = false ∧
    invoke sampleCode (Func.fn 1) ⟨GoMap.empty.assign "acme" (Func.fn 1), false, 0⟩ =
      some (some 0, ⟨GoMap.empty.assign "acme" (Func.fn 1), false, 1⟩) ∧
    (some 0 : CadMonitor) ≠ none ∧
    ∃ s1 m s2, (RegisterCadMonitor "acme" (Func.fn 1) (State.init 0 : State Nat)).result =
        some s1 ∧
      (InstantiateCadMonitor sampleCode "acme" s1).result = some ((m, none), s2) ∧
      m = some 0 ∧ m ≠ none :=
  ⟨rfl, rfl, by decide,
    instance_nonnil_of_ctor_nonnil sampleCode (State.init 0) "acme" (Func.fn 1) (some 0) _
      rfl rfl (by decide)⟩

/-! ## Frame properties -/

/-- C6, as stated, fails: with `m` registered to a constructor that returns what
`InstantiateCadMonitor("n")` returns, `InstantiateCadMonitor("m")` returns
`(nil, nil)` before `RegisterCadMonitor("n", c)` and the instance of `c` after. -/
theorem cross_talk_counterexample :
    "m" ≠ "n" ∧
    (InstantiateCadMonitor sampleCode "m"
        (⟨GoMap.empty.assign "m" (Func.fn 3), false, 0⟩ : State Nat)).result.map
      (fun r => (r.1, r.2.world)) = some ((none, none), 0) ∧
    ∃ s1, (RegisterCadMonitor "n" (Func.fn 1)
        (⟨GoMap.empty.assign "m" (Func.fn 3), false, 0⟩ : State Nat)).result = some s1 ∧
      (InstantiateCadMonitor sampleCode "m" s1).result.map (fun r => (r.1, r.2.world)) =
        some ((some 0, none), 1) :=
  ⟨by decide, rfl, _, rfl, rfl⟩

/-- C6, amended: from any state with the mutex free, `RegisterCadMonitor(N, c)`
leaves the entry of every other name `M` as it was, so `InstantiateCadMonitor(M)`
calls the same constructor as before, and returns the same results in the same
world whenever that constructor neither reads nor writes the package variables;
and after registering entries with pairwise distinct names, in any order,
instantiating each name calls that name's own constructor and returns its value
with a nil error, whenever that constructor returns a value. -/
theorem no_cross_talk {W : Type} (code : Code W) (s : State W)
    (hfree : s.cadMonitorRegistryLock = false) :
    (∀ (N M : String) (c : Func), M ≠ N →
      ∃ s1, (RegisterCadMonitor N c s).result = some s1 ∧
        s1.cadMonitorRegistry.lookup M = s.cadMonitorRegistry.lookup M ∧
        (InstantiateCadMonitor code M s1).calls = (InstantiateCadMonitor code M s).calls ∧
        ((∀ f, s.cadMonitorRegistry.lookup M = some f → ∃ g, WorldOnly code f g) →
          (InstantiateCadMonitor code M s1).result.map (fun r => (r.1, r.2.world)) =
            (InstantiateCadMonitor code M s).result.map (fun r => (r.1, r.2.world)))) ∧
    (∀ rs order : List (String × Func), (rs.map Prod.fst).Nodup → order.Perm rs →
      ∃ s1, registerAll order s = some s1 ∧
        ∀ (n : String) (c : Func) (v : CadMonitor) (s2 : State W), (n, c) ∈ rs →
          invoke code c s1 = some (v, s2) →
          InstantiateCadMonitor code n s1 = ⟨[c], some ((v, none), s2)⟩) := by
  constructor
  · intro N M c hne
    refine ⟨_, RegisterCadMonitor_result_of_free N c s hfree, ?_⟩
    have hl := GoMap.lookup_assign_ne s.cadMonitorRegistry N M c hne
    refine ⟨hl, ?_⟩
    cases hm : s.cadMonitorRegistry.lookup M with
    | none =>
      rw [hm] at hl
      rw [InstantiateCadMonitor_of_absent code M _ hl,
        InstantiateCadMonitor_of_absent code M s hm]
      exact ⟨rfl, fun _ => rfl⟩
    | some f =>
      rw [hm] at hl
      rw [InstantiateCadMonitor_of_present code M _ f hl,
        InstantiateCadMonitor_of_present code M s f hm]
      constructor
      · cases invoke code f s <;>
          cases invoke code f
            (⟨s.cadMonitorRegistry.assign N c, false, s.world⟩ : State W) <;> rfl
      · intro hw
        obtain ⟨g, hg⟩ := hw f rfl
        rw [hg, hg]
        cases g s.world <;> rfl
  · intro rs order hn hp
    obtain ⟨s1, h1, _, _, _, h5⟩ := registerAll_of_free order s hfree
    refine ⟨s1, h1, ?_⟩
    intro n c v s2 hmem hc
    have hn1 : (order.map Prod.fst).Nodup := ((hp.map Prod.fst).nodup_iff).mpr hn
    have hl := h5 n c hn1 (hp.mem_iff.mpr hmem)
    rw [InstantiateCadMonitor_of_present code n s1 c hl]
    simp [hc]

/-- C6 amended, on the sample state: registering `b` leaves the instantiation of
the registered `acme` as it was, and after registering `b` and then `a`, each
name yields the value of its own constructor. -/
theorem no_cross_talk_witness :
    sampleState.cadMonitorRegistryLock = false ∧
    (∃ s1, (RegisterCadMonitor "b" (Func.fn 0) sampleState).result = some s1 ∧
      (InstantiateCadMonitor sampleCode "acme" s1).calls = [Func.fn 1] ∧
      (InstantiateCadMonitor sampleCode "acme" s1).result.map (fun r => (r.1, r.2.world)) =
        (InstantiateCadMonitor sampleCode "acme" sampleState).result.map
          (fun r => (r.1, r.2.world))) ∧
    (∃ s1, registerAll [("b", Func.fn 0), ("a", Func.fn 1)] sampleState = some s1 ∧
      (InstantiateCadMonitor sampleCode "a" s1).result.map (fun r => r.1) =
        some (some 0, none) ∧
      (InstantiateCadMonitor sampleCode "b" s1).result.map (fun r => r.1) =
        some (none, none)) := by
  have h := no_cross_talk sampleCode sampleState rfl
  refine ⟨rfl, ?_, ?_⟩
  · obtain ⟨s1, h1, _, h3, h4⟩ := h.1 "b" "acme" (Func.fn 0) (by decide)
    refine ⟨s1, h1, h3.trans rfl, h4 ?_⟩
    intro f hf
    have hf1 : f = Func.fn 1 := (Option.some.inj hf).symm
    subst hf1
    exact ⟨fun w => some (some w, w + 1), fun _ => rfl⟩
  · obtain ⟨s1, h1, h2⟩ :=
      h.2 [("a", Func.fn 1), ("b", Func.fn 0)] [("b", Func.fn 0), ("a", Func.fn 1)]
        (by decide) (List.Perm.swap _ _ _)
    have hs : s1 = ⟨((GoMap.empty.assign "acme" (Func.fn 1)).assign "b" (Func.fn 0)).assign
        "a" (Func.fn 1), false, 0⟩ := Option.some.inj (h1.symm.trans rfl)
    subst hs
    refine ⟨_, h1, ?_, ?_⟩
    · rw [h2 "a" (Func.fn 1) (some 0) _ (by simp) rfl]
      rfl
    · rw [h2 "b" (Func.fn 0) none _ (by simp) rfl]
      rfl

/-- C8, as stated, fails: with `acme` registered to a constructor that itself
calls `RegisterCadMonitor("other", ...)`, the call `InstantiateCadMonitor("acme")`
returns a new object and a nil error and leaves a map with two entries where
there was one. -/
theorem instantiate_changes_registry_counterexample :
    InstantiateCadMonitor sampleCode "acme"
        (⟨GoMap.empty.assign "acme" (Func.fn 2), false, 0⟩ : State Nat) =
      ⟨[Func.fn 2], some ((some 0, none),
        ⟨(GoMap.empty.assign "acme" (Func.fn 2)).assign "other" (Func.fn 0), false, 1⟩)⟩ ∧
    (GoMap.empty.assign "acme" (Func.fn 2)).entries.length = 1 ∧
    ((GoMap.empty.assign "acme" (Func.fn 2)).assign "other" (Func.fn 0)).entries.length = 2 ∧
    (GoMap.empty.assign "acme" (Func.fn 2)).lookup "other" = none ∧
    ((GoMap.empty.assign "acme" (Func.fn 2)).assign "other" (Func.fn 0)).lookup "other" =
      some (Func.fn 0) :=
  ⟨rfl, rfl, rfl, rfl, rfl⟩

/-- C8, amended: `InstantiateCadMonitor(name)` writes nothing itself and keeps
nothing of what it creates.  A call that returns an error called nothing and
left the whole state as it was.  A call that returns a nil error called the
registered constructor, once, returns the value of that call, and returns in
exactly the state that call left: the map and the mutex are as before whenever
the constructor neither reads nor writes the package variables.  With the map as
before, the next instantiation of the name calls the constructor anew, in the
state the first call left. -/
theorem instantiate_frame {W : Type} (code : Code W) (name : String) (s : State W) :
    (∀ m e s1, (InstantiateCadMonitor code name s).result = some ((m, some e), s1) →
      s1 = s ∧ (InstantiateCadMonitor code name s).calls = []) ∧
    (∀ m s1, (InstantiateCadMonitor code name s).result = some ((m, none), s1) →
      ∃ f, s.cadMonitorRegistry.lookup name = some f ∧
        (InstantiateCadMonitor code name s).calls = [f] ∧
        invoke code f s = some (m, s1) ∧
        (∀ g, WorldOnly code f g →
          s1.cadMonitorRegistry = s.cadMonitorRegistry ∧
          s1.cadMonitorRegistryLock = s.cadMonitorRegistryLock) ∧
        (s1.cadMonitorRegistry = s.cadMonitorRegistry →
          InstantiateCadMonitor code name s1 =
            match invoke code f s1 with
            | none => ⟨[f], none⟩
            | some (m2, s2) => ⟨[f], some ((m2, none), s2)⟩)) := by
  cases hl : s.cadMonitorRegistry.lookup name with
  | none =>
    rw [InstantiateCadMonitor_of_absent code name s hl]
    refine ⟨?_, ?_⟩
    · intro m e s1 h
      simp only [Option.some.injEq, Prod.mk.injEq] at h
      exact ⟨h.2.symm, rfl⟩
    · intro m s1 h
      simp at h
  | some f =>
    rw [InstantiateCadMonitor_of_present code name s f hl]
    cases hi : invoke code f s with
    | none =>
      refine ⟨?_, ?_⟩
      · intro m e s1 h; simp at h
      · intro m s1 h; simp at h
    | some p =>
      obtain ⟨v, t⟩ := p
      refine ⟨?_, ?_⟩
      · intro m e s1 h
        simp at h
      · intro m s1 h
        simp only [Option.some.injEq, Prod.mk.injEq, and_true] at h
        obtain ⟨hm, hs⟩ := h
        subst hs
        subst hm
        refine ⟨f, rfl, rfl, hi, ?_, ?_⟩
        · intro g hg
          rw [hg s] at hi
          cases hgw : g s.world with
          | none => simp [hgw] at hi
          | some r =>
            simp only [hgw, Option.map_some', Option.some.injEq, Prod.mk.injEq] at hi
            rw [← hi.2]
            exact ⟨rfl, rfl⟩
        · intro hreg
          exact InstantiateCadMonitor_of_present code name t f (by rw [hreg]; exact hl)

/-- C8 amended, on the sample state: two instantiations of `acme` in a row call
the constructor twice and return two different new objects, and the map is the
same throughout. -/
theorem instantiate_frame_witness :
    InstantiateCadMonitor sampleCode "acme" sampleState =
      ⟨[Func.fn 1], some ((some 0, none), { sampleState with world := 1 })⟩ ∧
    InstantiateCadMonitor sampleCode "acme" { sampleState with world := 1 } =
      ⟨[Func.fn 1], some ((some 1, none), { sampleState with world := 2 })⟩ ∧
    ∃ f, sampleState.cadMonitorRegistry.lookup "acme" = some f ∧
      (InstantiateCadMonitor sampleCode "acme" sampleState).calls = [f] ∧
      invoke sampleCode f sampleState = some (some 0, { sampleState with world := 1 }) :=
  ⟨rfl, rfl,
    ((instantiate_frame sampleCode "acme" sampleState).2 (some 0)
      { sampleState with world := 1 } rfl).imp
      (fun _ h => ⟨h.1, h.2.1, h.2.2.1⟩)⟩

/-! ## The mutex -/

/-- C9: from a state with the mutex free, the call `RegisterCadMonitor(name, m)`
completes three actions and returns: `Lock`, leaving the mutex held and the map
as before; the map write, leaving the mutex held and `m` stored under `name`;
`Unlock`, leaving the mutex free.  In both states with the mutex held a `Lock`
does not complete and a call of `RegisterCadMonitor` completes no action.  The
rest of the program state is never touched and no action is a call, so `m` is
stored without being called; and every sequence of registrations returns with
the mutex free. -/
theorem register_lock_discipline {W : Type} (name : String) (m : Func) (s : State W)
    (hfree : s.cadMonitorRegistryLock = false) :
    RegisterCadMonitor name m s =
      ⟨[(Instr.lock, ⟨s.cadMonitorRegistry, true, s.world⟩),
        (Instr.store name m, ⟨s.cadMonitorRegistry.assign name m, true, s.world⟩),
        (Instr.unlock, ⟨s.cadMonitorRegistry.assign name m, false, s.world⟩)],
        some ⟨s.cadMonitorRegistry.assign name m, false, s.world⟩⟩ ∧
    Instr.exec Instr.lock (⟨s.cadMonitorRegistry, true, s.world⟩ : State W) = none ∧
    Instr.exec Instr.lock
      (⟨s.cadMonitorRegistry.assign name m, true, s.world⟩ : State W) = none ∧
    (∀ (n2 : String) (m2 : Func),
      RegisterCadMonitor n2 m2 (⟨s.cadMonitorRegistry, true, s.world⟩ : State W) =
        ⟨[], none⟩ ∧
      RegisterCadMonitor n2 m2
        (⟨s.cadMonitorRegistry.assign name m, true, s.world⟩ : State W) = ⟨[], none⟩) ∧
    (s.cadMonitorRegistry.assign name m).lookup name = some m ∧
    (∀ rs : List (String × Func), ∃ s1, registerAll rs s = some s1 ∧
      s1.cadMonitorRegistryLock = false ∧ s1.world = s.world) := by
  refine ⟨RegisterCadMonitor_of_free name m s hfree, ?_, ?_, ?_,
    GoMap.lookup_assign_same _ name m, ?_⟩
  · simp [Instr.exec]
  · simp [Instr.exec]
  · intro n2 m2
    exact ⟨RegisterCadMonitor_of_held n2 m2 _ rfl, RegisterCadMonitor_of_held n2 m2 _ rfl⟩
  · intro rs
    obtain ⟨s1, h1, h2, h3, _⟩ := registerAll_of_free rs s hfree
    exact ⟨s1, h1, h2, h3⟩

/-- C9, registering the nil function value under `acme` on the initial state. -/
theorem register_lock_discipline_witness :
    (State.init 7 : State Nat).cadMonitorRegistryLock = false ∧
    RegisterCadMonitor "acme" Func.nil (State.init 7 : State Nat) =
      ⟨[(Instr.lock, ⟨GoMap.empty, true, 7⟩),
        (Instr.store "acme" Func.nil, ⟨GoMap.empty.assign "acme" Func.nil, true, 7⟩),
        (Instr.unlock, ⟨GoMap.empty.assign "acme" Func.nil, false, 7⟩)],
        some ⟨GoMap.empty.assign "acme" Func.nil, false, 7⟩⟩ :=
  ⟨rfl, (register_lock_discipline "acme" Func.nil (State.init 7) rfl).1⟩

/-- C7: `InstantiateCadMonitor` takes no lock.  While `RegisterCadMonitor("acme", f)`
holds the mutex, both before and after its map write, a `Lock` does not
complete, yet `InstantiateCadMonitor("acme")` reads the map and returns. -/
theorem instantiate_inside_critical_section :
    ∃ s1 s2 s3 : State Nat,
      RegisterCadMonitor "acme" (Func.fn 1) (State.init 0) =
        ⟨[(Instr.lock, s1), (Instr.store "acme" (Func.fn 1), s2), (Instr.unlock, s3)],
          some s3⟩ ∧
      s1.cadMonitorRegistryLock = true ∧ Instr.exec Instr.lock s1 = none ∧
      InstantiateCadMonitor sampleCode "acme" s1 =
        ⟨[], some ((none, some (errorsNew "unable to locate cad monitor acme")), s1)⟩ ∧
      s2.cadMonitorRegistryLock = true ∧ Instr.exec Instr.lock s2 = none ∧
      InstantiateCadMonitor sampleCode "acme" s2 =
        ⟨[Func.fn 1], some ((some 0, none), { s2 with world := 1 })⟩ :=
  ⟨_, _, _, rfl, rfl, rfl, rfl, rfl, rfl, rfl⟩

/-! ## The two error values -/

theorem notfound_text_ne_logged_out (name : String) :
    "unable to locate cad monitor " ++ name ≠ "logged out" := by
  intro h
  have hlen := congrArg String.length h
  rw [String.length_append] at hlen
  have h1 : "unable to locate cad monitor ".length = 29 := by decide
  have h2 : "logged out".length = 10 := by decide
  omega

/-- C10: the message of the error that `InstantiateCadMonitor` builds for a name
without an entry is never `"logged out"`, the message of
`ErrCadMonitorLoggedOut`; so no call of `InstantiateCadMonitor` returns an error
with the message of that sentinel, and none returns the sentinel. -/
theorem notfound_is_not_logged_out {W : Type} (code : Code W) (name : String)
    (s : State W) :
    (errorsNew ("unable to locate cad monitor " ++ name)).msg ≠ ErrCadMonitorLoggedOut.msg ∧
    ∀ m e s1, (InstantiateCadMonitor code name s).result = some ((m, some e), s1) →
      e.msg ≠ ErrCadMonitorLoggedOut.msg ∧ e ≠ ErrCadMonitorLoggedOut := by
  have hne : (errorsNew ("unable to locate cad monitor " ++ name)).msg ≠
      ErrCadMonitorLoggedOut.msg := notfound_text_ne_logged_out name
  refine ⟨hne, ?_⟩
  intro m e s1 h
  have he : e = errorsNew ("unable to locate cad monitor " ++ name) := by
    cases hl : s.cadMonitorRegistry.lookup name with
    | none =>
      rw [InstantiateCadMonitor_of_absent code name s hl] at h
      simp only [Option.some.injEq, Prod.mk.injEq] at h
      exact h.1.2.symm
    | some f =>
      rw [InstantiateCadMonitor_of_present code name s f hl] at h
      cases hi : invoke code f s with
      | none => simp [hi] at h
      | some r => simp [hi] at h
  subst he
  exact ⟨hne, fun h2 => hne (congrArg GoError.msg h2)⟩

end Monitor
